import Mathlib

/-!
# Verification of the Cloud-Resource-Auto-Scaler client core

Shallow embedding of the session/authentication lifecycle of the
Cloud-Resource-Auto-Scaler single-page application:

* `src/utils/storage.ts` — token store and client-side JWT validity check
  (`isTokenValid`, `decodeJwtPayload`, `isAuthenticated`);
* `src/context/AuthContext.tsx` — session state (`AuthProvider`, `login`,
  `logout`);
* `src/api/axiosInstance.ts` — request/response interceptors (bearer-token
  attachment, global 401 handling);
* `src/services/instanceService.ts` — error-message normalisation;
* `src/pages/InstanceMetricsPage.tsx` — the polling fetch cycle;
* `src/utils/passwordValidation.ts` — password rules.

JavaScript strings are modelled through their character lists, JSON numbers
as exact rationals (the idealisation of IEEE doubles usual in shallow
embeddings), exceptions as `Except Unit`, `try/catch` as a `match` on the
`Except`, and the browser environment (localStorage token, current path)
as explicit state records.
-/

namespace AutoScaler

/-! ## JSON values (the image of `JSON.parse`) -/

/-- A JSON number, kept as the exact decimal `mant * 10 ^ exp10` read off
the literal (an exact idealisation of the IEEE double `JSON.parse`
produces; comparisons and the zero test are computed on integers). -/
structure JNum : Type where
  mant : Int
  exp10 : Int
deriving DecidableEq, Repr

/-- Ten to an integer power, as a rational. -/
def pow10 (e : Int) : Rat :=
  if 0 ≤ e then ((10 : Rat) ^ e.toNat) else 1 / ((10 : Rat) ^ (-e).toNat)

/-- The rational value of a JSON number. -/
def JNum.toRat (n : JNum) : Rat :=
  (n.mant : Rat) * pow10 n.exp10

/-- `n > k` for a JSON number `n` and a natural `k` (the comparison
`payload.exp > nowSeconds`), computed exactly on integers by clearing
the power of ten. -/
def JNum.gtNat (n : JNum) (k : Nat) : Bool :=
  if 0 ≤ n.exp10 then decide ((k : Int) < n.mant * ((10 : Int) ^ n.exp10.toNat))
  else decide ((k : Int) * ((10 : Int) ^ (-n.exp10).toNat) < n.mant)

/-- A JavaScript JSON value, as produced by `JSON.parse`.  Object fields
keep their textual order (later duplicates win on lookup, as in
`JSON.parse`). -/
inductive Json : Type where
  | null : Json
  | bool : Bool → Json
  | num : JNum → Json
  | str : String → Json
  | arr : List Json → Json
  | obj : List (String × Json) → Json

/-- JavaScript truthiness of a JSON value (`!payload` in `storage.ts`
negates this): `null`, `false`, `0` and `""` are falsy, every array and
object is truthy. -/
def Json.truthy : Json → Bool
  | .null => false
  | .bool b => b
  | .num q => decide (q.mant ≠ 0)
  | .str s => decide (s ≠ "")
  | .arr _ => true
  | .obj _ => true

/-- Property lookup on a parsed JSON value, JavaScript style: on an object,
the last binding of the key wins (as `JSON.parse` keeps the last duplicate);
on any non-object value the property is `undefined` (`none`). -/
def Json.lookup (j : Json) (key : String) : Option Json :=
  match j with
  | .obj fields =>
    (fields.reverse.find? (fun p => p.1 = key)).map Prod.snd
  | _ => none

/-- The `exp` claim of a decoded payload when it is a number
(`typeof payload.exp === 'number'` in `isTokenValid`); `none` when the
property is absent or not numeric. -/
def Json.expNum (j : Json) : Option JNum :=
  match j.lookup "exp" with
  | some (.num q) => some q
  | _ => none

/-! ## `String.prototype.split` on `'.'` -/

/-- `token.split('.')` on character lists: splits at every `'.'`,
keeping empty segments, and maps `""` to `[""]` as in JavaScript. -/
def splitOnChar (sep : Char) : List Char → List (List Char)
  | [] => [[]]
  | c :: cs =>
    match splitOnChar sep cs with
    | [] => if c = sep then [[], [c]] else [[c]]
    | h :: t => if c = sep then [] :: h :: t else (c :: h) :: t

/-! ## `atob` (WHATWG forgiving base64 decode) -/

/-- ASCII whitespace stripped by the forgiving-base64 algorithm. -/
def isAsciiWs (c : Char) : Bool :=
  c = ' ' ∨ c = '\t' ∨ c = '\n' ∨ c = '\x0c' ∨ c = '\r'

/-- Value of a base64 alphabet character, `none` outside the alphabet. -/
def base64Val (c : Char) : Option Nat :=
  if 'A' ≤ c ∧ c ≤ 'Z' then some (c.toNat - 'A'.toNat)
  else if 'a' ≤ c ∧ c ≤ 'z' then some (c.toNat - 'a'.toNat + 26)
  else if '0' ≤ c ∧ c ≤ '9' then some (c.toNat - '0'.toNat + 52)
  else if c = '+' then some 62
  else if c = '/' then some 63
  else none

/-- Maps every character to its base64 value, failing on the first
character outside the alphabet. -/
def base64Vals : List Char → Except Unit (List Nat)
  | [] => .ok []
  | c :: cs => do
    let v ← match base64Val c with
      | some v => Except.ok v
      | none => Except.error ()
    let vs ← base64Vals cs
    .ok (v :: vs)

/-- Reassembles 6-bit groups into bytes, discarding leftover bits of a
final group of two or three characters (forgiving decode). -/
def base64Bytes : List Nat → List Nat
  | a :: b :: c :: d :: rest =>
    (a * 4 + b / 16) :: ((b % 16) * 16 + c / 4) :: ((c % 4) * 64 + d) :: base64Bytes rest
  | [a, b] => [a * 4 + b / 16]
  | [a, b, c] => [a * 4 + b / 16, (b % 16) * 16 + c / 4]
  | _ => []

/-- `atob(s)`: the WHATWG forgiving-base64 decode.  Strips ASCII
whitespace; when the length is a multiple of four removes up to two
trailing `'='`; fails when the remaining length is `1 (mod 4)` or any
remaining character (including a stray `'='`) is outside the alphabet;
returns the decoded bytes. -/
def atob (input : List Char) : Except Unit (List Nat) := do
  let data := input.filter (fun c => !isAsciiWs c)
  let data :=
    if data.length % 4 = 0 then
      let r := data.reverse
      match r with
      | '=' :: '=' :: rest => rest.reverse
      | '=' :: rest => rest.reverse
      | _ => data
    else data
  if data.length % 4 = 1 then Except.error ()
  else do
    let vals ← base64Vals data
    .ok (base64Bytes vals)

/-! ## `JSON.parse` (strict JSON grammar, recursive descent with fuel) -/

/-- JSON insignificant whitespace. -/
def isJsonWs (c : Char) : Bool :=
  c = ' ' ∨ c = '\t' ∨ c = '\n' ∨ c = '\r'

/-- Drops leading JSON whitespace. -/
def skipWs : List Char → List Char
  | c :: cs => if isJsonWs c then skipWs cs else c :: cs
  | [] => []

/-- Digit value of `'0'..'9'`, `none` otherwise. -/
def digitVal (c : Char) : Option Nat :=
  if '0' ≤ c ∧ c ≤ '9' then some (c.toNat - '0'.toNat) else none

/-- Hex digit value, `none` otherwise. -/
def hexVal (c : Char) : Option Nat :=
  if '0' ≤ c ∧ c ≤ '9' then some (c.toNat - '0'.toNat)
  else if 'a' ≤ c ∧ c ≤ 'f' then some (c.toNat - 'a'.toNat + 10)
  else if 'A' ≤ c ∧ c ≤ 'F' then some (c.toNat - 'A'.toNat + 10)
  else none

/-- Reads a non-empty digit run, returning its value, its length and the
rest of the input. -/
def readDigits (acc : Nat) (len : Nat) : List Char → (Nat × Nat × List Char)
  | c :: cs =>
    match digitVal c with
    | some d => readDigits (acc * 10 + d) (len + 1) cs
    | none => (acc, len, c :: cs)
  | [] => (acc, len, [])

/-- Parses a JSON number (strict grammar: `-? (0|[1-9][0-9]*)
(.[0-9]+)? ([eE][+-]?[0-9]+)?`), returning its exact decimal value. -/
def parseNumber (s : List Char) : Except Unit (JNum × List Char) := do
  let (neg, s) := match s with
    | '-' :: rest => (true, rest)
    | _ => (false, s)
  -- integer part: '0' alone, or a run starting with a nonzero digit
  let (ipart, s) ← (do
    match s with
    | '0' :: rest => Except.ok ((0 : Nat), rest)
    | c :: _ =>
      match digitVal c with
      | some _ =>
        let (v, _, rest) := readDigits 0 0 s
        Except.ok (v, rest)
      | none => Except.error ()
    | [] => Except.error () : Except Unit (Nat × List Char))
  -- fractional part
  let (fval, flen, s) ← (do
    match s with
    | '.' :: rest =>
      match rest with
      | c :: _ =>
        match digitVal c with
        | some _ =>
          let (v, l, rest2) := readDigits 0 0 rest
          Except.ok (v, l, rest2)
        | none => Except.error ()
      | [] => Except.error ()
    | _ => Except.ok (0, 0, s) : Except Unit (Nat × Nat × List Char))
  -- exponent part
  let (eval, s) ← (do
    match s with
    | c :: rest =>
      if c = 'e' ∨ c = 'E' then
        let (esign, rest) := match rest with
          | '-' :: r => (true, r)
          | '+' :: r => (false, r)
          | _ => (false, rest)
        match rest with
        | d :: _ =>
          match digitVal d with
          | some _ =>
            let (v, _, rest2) := readDigits 0 0 rest
            Except.ok ((if esign then -(v : Int) else (v : Int)), rest2)
          | none => Except.error ()
        | [] => Except.error ()
      else Except.ok ((0 : Int), c :: rest)
    | [] => Except.ok ((0 : Int), []) : Except Unit (Int × List Char))
  let mant : Int := (ipart : Int) * ((10 : Int) ^ flen) + (fval : Int)
  .ok (⟨if neg then -mant else mant, eval - (flen : Int)⟩, s)

/-- Parses a JSON string body after the opening quote, handling the JSON
escape set; characters below `U+0020` must be escaped.  (`\\uXXXX` code
units that are not scalar values degrade to `U+0000` through
`Char.ofNat`, an idealisation that preserves emptiness and every
ASCII-keyed lookup.) -/
def parseStringBody (fuel : Nat) (s : List Char) : Except Unit (List Char × List Char) :=
  match fuel with
  | 0 => .error ()
  | fuel + 1 =>
    match s with
    | [] => .error ()
    | '"' :: rest => .ok ([], rest)
    | '\\' :: e :: rest =>
      (do
        let (c, rest') ← (match e with
          | '"' => Except.ok ('"', rest)
          | '\\' => Except.ok ('\\', rest)
          | '/' => Except.ok ('/', rest)
          | 'b' => Except.ok ('\x08', rest)
          | 'f' => Except.ok ('\x0c', rest)
          | 'n' => Except.ok ('\n', rest)
          | 'r' => Except.ok ('\r', rest)
          | 't' => Except.ok ('\t', rest)
          | 'u' =>
            match rest with
            | h1 :: h2 :: h3 :: h4 :: rest' =>
              match hexVal h1, hexVal h2, hexVal h3, hexVal h4 with
              | some a, some b, some c, some d =>
                Except.ok (Char.ofNat (((a * 16 + b) * 16 + c) * 16 + d), rest')
              | _, _, _, _ => Except.error ()
            | _ => Except.error ()
          | _ => Except.error () : Except Unit (Char × List Char))
        let (tail, rest'') ← parseStringBody fuel rest'
        .ok (c :: tail, rest''))
    | c :: rest =>
      if c.toNat < 0x20 then .error ()
      else do
        let (tail, rest') ← parseStringBody fuel rest
        .ok (c :: tail, rest')

/-- Checks that the input starts with the given literal and drops it. -/
def expectLit : List Char → List Char → Except Unit (List Char)
  | [], s => .ok s
  | l :: ls, c :: cs => if c = l then expectLit ls cs else .error ()
  | _ :: _, [] => .error ()

mutual

/-- Parses one JSON value. -/
def parseValue (fuel : Nat) (s : List Char) : Except Unit (Json × List Char) :=
  match fuel with
  | 0 => .error ()
  | fuel + 1 =>
    match s with
    | [] => .error ()
    | c :: rest =>
      if c = 'n' then do
        let r ← expectLit ['u', 'l', 'l'] rest
        .ok (.null, r)
      else if c = 't' then do
        let r ← expectLit ['r', 'u', 'e'] rest
        .ok (.bool true, r)
      else if c = 'f' then do
        let r ← expectLit ['a', 'l', 's', 'e'] rest
        .ok (.bool false, r)
      else if c = '"' then do
        let (body, r) ← parseStringBody fuel rest
        .ok (.str (String.mk body), r)
      else if c = '[' then do
        let s1 := skipWs rest
        match s1 with
        | ']' :: r => .ok (.arr [], r)
        | _ => do
          let (items, r) ← parseArrayItems fuel s1
          .ok (.arr items, r)
      else if c = '{' then do
        let s1 := skipWs rest
        match s1 with
        | '}' :: r => .ok (.obj [], r)
        | _ => do
          let (fields, r) ← parseObjectFields fuel s1
          .ok (.obj fields, r)
      else if c = '-' ∨ (digitVal c).isSome then do
        let (q, r) ← parseNumber (c :: rest)
        .ok (.num q, r)
      else .error ()

/-- Parses the items of a non-empty array, after the opening bracket and
leading whitespace. -/
def parseArrayItems (fuel : Nat) (s : List Char) : Except Unit (List Json × List Char) :=
  match fuel with
  | 0 => .error ()
  | fuel + 1 => do
    let (v, r) ← parseValue fuel s
    let r1 := skipWs r
    match r1 with
    | ']' :: r2 => .ok ([v], r2)
    | ',' :: r2 => do
      let (vs, r3) ← parseArrayItems fuel (skipWs r2)
      .ok (v :: vs, r3)
    | _ => .error ()

/-- Parses the fields of a non-empty object, after the opening brace and
leading whitespace. -/
def parseObjectFields (fuel : Nat) (s : List Char) : Except Unit (List (String × Json) × List Char) :=
  match fuel with
  | 0 => .error ()
  | fuel + 1 =>
    match s with
    | '"' :: rest => do
      let (key, r) ← parseStringBody fuel rest
      let r1 := skipWs r
      match r1 with
      | ':' :: r2 => do
        let (v, r3) ← parseValue fuel (skipWs r2)
        let r4 := skipWs r3
        match r4 with
        | '}' :: r5 => .ok ([(String.mk key, v)], r5)
        | ',' :: r5 => do
          let (fs, r6) ← parseObjectFields fuel (skipWs r5)
          .ok ((String.mk key, v) :: fs, r6)
        | _ => .error ()
      | _ => .error ()
    | _ => .error ()

end

/-- `JSON.parse(text)`: one JSON value surrounded only by whitespace;
anything else raises (`Except.error`). -/
def jsonParse (text : List Char) : Except Unit Json := do
  let s := skipWs text
  let (v, rest) ← parseValue (text.length + 1) s
  match skipWs rest with
  | [] => .ok v
  | _ => .error ()

/-! ## `storage.ts` — token store and JWT validity check -/

/-- The base64url-to-base64 character substitution performed by
`decodeJwtPayload`: every dash becomes a plus and every underscore a
slash (the two global `replace` calls). -/
def b64urlChar (c : Char) : Char :=
  if c = '-' then '+' else if c = '_' then '/' else c

/-- `base64.padEnd(Math.ceil(base64.length / 4) * 4, '=')`. -/
def padToMul4 (s : List Char) : List Char :=
  s ++ List.replicate (((s.length + 3) / 4) * 4 - s.length) '='

/-- The body of `decodeJwtPayload` inside its `try` block, with `atob`
and `JSON.parse` exceptions surfaced as `Except.error`:
split the token on `'.'`; when there are not exactly three segments
return `null` (`ok none`); otherwise base64url-normalise and pad the
middle segment, decode it with `atob`, turn the decoded bytes into the
string `atob` returns, and `JSON.parse` it. -/
def decodeJwtPayloadE (token : String) : Except Unit (Option Json) := do
  let parts := splitOnChar '.' token.data
  if parts.length = 3 then do
    let base64Url := parts.getD 1 []
    let base64 := base64Url.map b64urlChar
    let padded := padToMul4 base64
    let bytes ← atob padded
    let json := bytes.map Char.ofNat
    let payload ← jsonParse json
    .ok (some payload)
  else
    .ok none

/-- `decodeJwtPayload(token)`: the `try/catch` wrapper — any exception in
the pipeline is caught and mapped to `null` (`none`), as is the
wrong-segment-count early return. -/
def decodeJwtPayload (token : String) : Option Json :=
  match decodeJwtPayloadE token with
  | .ok r => r
  | .error _ => none

/-- `isTokenValid(token)` at a current time of `nowSeconds` whole seconds
(`Math.floor(Date.now() / 1000)`): fails when the payload is missing or
JS-falsy (`if (!payload) return false`), succeeds when the `exp` claim is
absent or not numeric, and otherwise checks `payload.exp > nowSeconds`. -/
def isTokenValid (token : String) (nowSeconds : Nat) : Bool :=
  match decodeJwtPayload token with
  | none => false
  | some payload =>
    if payload.truthy = false then false
    else
      match payload.expNum with
      | none => true
      | some e => e.gtNat nowSeconds

/-- `isAuthenticated()` over an explicit token-store content
(`localStorage.getItem` returns `null` when the key is absent): false
when the store is empty or holds the empty string (`if (!token) return
false`), else `isTokenValid`. -/
def isAuthenticated (store : Option String) (nowSeconds : Nat) : Bool :=
  match store with
  | none => false
  | some t => if t = "" then false else isTokenValid t nowSeconds

/-- `!!token` — the token store holds a JS-truthy token. -/
def tokenPresent (store : Option String) : Bool :=
  match store with
  | none => false
  | some t => decide (t ≠ "")

/-! ## `AuthContext.tsx` — session state machine -/

/-- The client-side state the session lifecycle acts on: the persisted
token (`localStorage`), the React `isAuthenticated` flag, and the current
location path. -/
structure AuthState : Type where
  store : Option String
  flag : Bool
  path : String
deriving DecidableEq, Repr

/-- The initial `useState` value of `AuthProvider`:
`checkAuth()` = `isAuthenticated()` from `storage.ts`. -/
def startupInitialFlag (store : Option String) (now : Nat) : Bool :=
  isAuthenticated store now

/-- The mount `useEffect` of `AuthProvider`: re-reads the token and sets
the flag to `!!token` — presence only, without any validity check. -/
def mountEffect (s : AuthState) : AuthState :=
  { s with flag := tokenPresent s.store }

/-- Process startup: the provider renders with `useState(checkAuth())`
and then the mount effect runs, overwriting the flag with `!!getToken()`. -/
def startup (store : Option String) (path : String) (now : Nat) : AuthState :=
  mountEffect { store := store, flag := startupInitialFlag store now, path := path }

/-- `login(token)`: `saveToken(token); setIsAuthenticated(true)` —
unconditionally, with no validity check of the saved token. -/
def login (s : AuthState) (t : String) : AuthState :=
  { s with store := some t, flag := true }

/-- `logout()`: `removeToken(); setIsAuthenticated(false)`. -/
def logout (s : AuthState) : AuthState :=
  { s with store := none, flag := false }

/-- `forcedLogout`, i.e. the 401 branch of the axios response
interceptor: `removeToken()`, then — only when not already on
`/login` — `window.location.href = '/login'`.  That assignment is a
full page navigation, so the application restarts on `/login` and the
provider recomputes its flag from the (now empty) store; when already on
`/login` nothing else happens and the React flag is left untouched. -/
def forcedLogout (s : AuthState) (now : Nat) : AuthState :=
  if s.path = "/login" then { s with store := none }
  else startup none "/login" now

/-- One externally triggered session event. -/
inductive SessionEvent : Type where
  | login (t : String)
  | logout
  | forcedLogout (now : Nat)
deriving DecidableEq, Repr

/-- Applies one session event. -/
def stepEvent (s : AuthState) : SessionEvent → AuthState
  | .login t => login s t
  | .logout => logout s
  | .forcedLogout now => forcedLogout s now

/-- Applies a sequence of session events from left to right. -/
def runEvents (s : AuthState) : List SessionEvent → AuthState
  | [] => s
  | e :: es => runEvents (stepEvent s e) es

/-- States reachable from some process startup by the session
transitions `login`, `logout` and `forcedLogout`. -/
def ReachableAuth (s : AuthState) : Prop :=
  ∃ store path now evs, s = runEvents (startup store path now) evs

/-! ## `axiosInstance.ts` — request and response interceptors -/

/-- An outbound axios request configuration (`InternalAxiosRequestConfig`
always carries a headers object). -/
structure RequestConfig : Type where
  url : String
  method : String
  body : Option String
  headers : List (String × String)
deriving DecidableEq, Repr

/-- JavaScript property assignment `headers[k] = v`: overwrites the
binding when present, otherwise appends it. -/
def setHeader (hs : List (String × String)) (k v : String) : List (String × String) :=
  if hs.any (fun p => p.1 = k) then
    hs.map (fun p => if p.1 = k then (k, v) else p)
  else hs ++ [(k, v)]

/-- Header lookup. -/
def getHeader (hs : List (String × String)) (k : String) : Option String :=
  (hs.find? (fun p => p.1 = k)).map Prod.snd

/-- The request interceptor: reads the token from the store and, when it
is truthy (`if (token && config.headers)` — the headers object always
exists on an internal config), sets the `Authorization` header to the
bearer form.  Otherwise the configuration passes through unchanged. -/
def requestInterceptor (store : Option String) (config : RequestConfig) : RequestConfig :=
  match store with
  | some t =>
    if t ≠ "" then
      { config with headers := setHeader config.headers "Authorization" ("Bearer " ++ t) }
    else config
  | none => config

/-- A failed axios response as the response interceptor sees it:
`error.response?.status` (`none` when the request never got a response)
plus an opaque identity so that "the same error is propagated" is
expressible. -/
structure HttpError : Type where
  status : Option Nat
  errorId : Nat
deriving DecidableEq, Repr

/-- The browser-visible state the response interceptor acts on: the
token store, the current path, and a count of navigation side effects
(`window.location.href = '/login'` assignments) performed so far. -/
structure ClientState : Type where
  store : Option String
  path : String
  navCount : Nat
deriving DecidableEq, Repr

/-- The error branch of the response interceptor: on status 401 it clears
the token (`removeToken()`) and, only when the page is not already on
`/login`, navigates there; every other error leaves the state alone.  In
both cases the original error is rejected onward to the caller
(`Promise.reject(error)`), which the second component records. -/
def responseErrorInterceptor (s : ClientState) (e : HttpError) : ClientState × HttpError :=
  if e.status = some 401 then
    let s1 : ClientState := { s with store := none }
    let s2 : ClientState :=
      if s1.path ≠ "/login" then { s1 with path := "/login", navCount := s1.navCount + 1 }
      else s1
    (s2, e)
  else (s, e)

/-- Several in-flight requests failing one after the other: the
single-threaded event loop runs the interceptor once per error, in
order.  Returns the final state and the errors as propagated to their
callers. -/
def processErrors (s : ClientState) : List HttpError → ClientState × List HttpError
  | [] => (s, [])
  | e :: es =>
    let (s1, r) := responseErrorInterceptor s e
    let (s2, rs) := processErrors s1 es
    (s2, r :: rs)

/-! ## Data records (`instance.types.ts`, `metrics.types.ts`) -/

/-- An instance record as returned by the backend. -/
structure Instance : Type where
  id : String
  instance_id : String
  instance_type : String
  region : String
  is_monitoring : Bool
  created_at : String
deriving DecidableEq, Repr

/-- The body of `GET /api/instances/`. -/
structure InstancesResponse : Type where
  instances : List Instance
deriving DecidableEq, Repr

/-- A metric sample (numeric fields as exact decimals). -/
structure Metric : Type where
  id : String
  timestamp : String
  cpu_utilization : JNum
  memory_usage : JNum
  network_in : JNum
  network_out : JNum
  is_outlier : Bool
deriving DecidableEq, Repr

/-- A scaling decision record. -/
structure ScalingDecision : Type where
  id : String
  timestamp : String
  cpu_utilization : JNum
  memory_usage : JNum
  decision : String
  reason : String
deriving DecidableEq, Repr

/-! ## `instanceService.ts` — error-message normalisation -/

/-- What a failed call exposes to the service layer:
`error.response?.data?.error`, the backend-supplied error string when the
response body carries one (`none` when there is no response, no body, or
no `error` field). -/
structure ApiFailure : Type where
  backendError : Option String
deriving DecidableEq, Repr

/-- Outcome of the single underlying `axiosInstance` call an operation
makes. -/
inductive ApiOutcome (α : Type) : Type where
  | ok (response : α)
  | failure (f : ApiFailure)

/-- `error.response?.data?.error || fallback`: the backend string when it
is truthy, else the operation's fixed fallback phrase. -/
def serviceErrorMessage (f : ApiFailure) (fallback : String) : String :=
  match f.backendError with
  | some s => if s = "" then fallback else s
  | none => fallback

/-- `getInstances()`: on success the `instances` field of the response
body; on any failure a fresh error whose message is the backend string
when present, else `"Failed to fetch instances."`.  The function performs
exactly one underlying call — its result is a function of that single
outcome, with no retry. -/
def getInstances (r : ApiOutcome InstancesResponse) : Except String (List Instance) :=
  match r with
  | .ok resp => .ok resp.instances
  | .failure f => .error (serviceErrorMessage f "Failed to fetch instances.")

/-! ## `InstanceMetricsPage.tsx` — the polling fetch cycle -/

/-- The UI state of the metrics-detail screen that `fetchData`
manipulates. -/
structure PageState : Type where
  metrics : List Metric
  decisions : List ScalingDecision
  loading : Bool
  error : Option String
deriving DecidableEq, Repr

/-- How one fetch cycle settles: both parallel requests succeed, or the
combined `Promise.all` fails with an error message. -/
inductive FetchResult : Type where
  | success (metrics : List Metric) (decisions : List ScalingDecision)
  | failure (message : String)
deriving DecidableEq, Repr

/-- One complete run of `fetchData(isBackgroundRefresh)` whose requests
settle as `result`: show the spinner only on a foreground cycle, then
`setError(null)` unconditionally; on success store the data and clear the
error again; on failure record the message only on a foreground cycle;
finally hide the spinner only on a foreground cycle. -/
def fetchData (isBackgroundRefresh : Bool) (result : FetchResult) (s : PageState) : PageState :=
  let s1 := if !isBackgroundRefresh then { s with loading := true } else s
  let s2 := { s1 with error := none }
  match result with
  | .success ms ds =>
    let s3 := { s2 with metrics := ms, decisions := ds, error := none }
    if !isBackgroundRefresh then { s3 with loading := false } else s3
  | .failure msg =>
    let s3 := if !isBackgroundRefresh then { s2 with error := some msg } else s2
    if !isBackgroundRefresh then { s3 with loading := false } else s3

/-! ## `passwordValidation.ts` -/

/-- The five password rules. -/
structure PasswordRuleResult : Type where
  minLength : Bool
  uppercase : Bool
  lowercase : Bool
  number : Bool
  special : Bool
deriving DecidableEq, Repr

/-- `validatePasswordRules(password)`: length at least 8, and the four
character-class tests (a "special character" is anything that is not an
ASCII letter or digit). -/
def validatePasswordRules (password : String) : PasswordRuleResult :=
  { minLength := decide (password.length ≥ 8)
    uppercase := password.data.any (fun c => 'A' ≤ c ∧ c ≤ 'Z')
    lowercase := password.data.any (fun c => 'a' ≤ c ∧ c ≤ 'z')
    number := password.data.any (fun c => '0' ≤ c ∧ c ≤ '9')
    special := password.data.any (fun c =>
      ¬(('A' ≤ c ∧ c ≤ 'Z') ∨ ('a' ≤ c ∧ c ≤ 'z') ∨ ('0' ≤ c ∧ c ≤ '9'))) }

/-- `isPasswordValid(password)`: all five rules hold. -/
def isPasswordValid (password : String) : Bool :=
  let r := validatePasswordRules password
  r.minLength && r.uppercase && r.lowercase && r.number && r.special

/-! ## Supporting lemmas -/

/-- The exact integer comparison `JNum.gtNat` agrees with the rational
ordering of the number's value. -/
theorem JNum.gtNat_iff (n : JNum) (k : Nat) :
    n.gtNat k = true ↔ (k : Rat) < n.toRat := by
  unfold JNum.gtNat JNum.toRat pow10
  by_cases h : 0 ≤ n.exp10
  · rw [if_pos h, if_pos h, decide_eq_true_eq]
    constructor
    · intro hlt
      exact_mod_cast hlt
    · intro hlt
      exact_mod_cast hlt
  · rw [if_neg h, if_neg h, decide_eq_true_eq]
    have hp : (0 : Rat) < (10 : Rat) ^ (-n.exp10).toNat := by positivity
    rw [mul_one_div, lt_div_iff₀ hp]
    constructor
    · intro hlt
      exact_mod_cast hlt
    · intro hlt
      exact_mod_cast hlt

/-- A token that does not split into exactly three dot-separated segments
decodes to `null`. -/
theorem decodeJwtPayload_eq_none_of_segments (t : String)
    (h : (splitOnChar '.' t.data).length ≠ 3) : decodeJwtPayload t = none := by
  unfold decodeJwtPayload decodeJwtPayloadE
  simp only [if_neg h]

/-- The flag/store/path invariant preserved by the session transitions:
an authenticated flag guarantees a stored token except on the login
screen. -/
def AuthInv (s : AuthState) : Prop :=
  s.flag = true → s.store.isSome = true ∨ s.path = "/login"

theorem authInv_startup (store : Option String) (path : String) (now : Nat) :
    AuthInv (startup store path now) := by
  intro hf
  cases store with
  | none => simp [startup, mountEffect, tokenPresent] at hf
  | some t => left; rfl

theorem authInv_step (s : AuthState) (e : SessionEvent) (_h : AuthInv s) :
    AuthInv (stepEvent s e) := by
  cases e with
  | login t => intro _; left; rfl
  | logout => intro hf; simp [stepEvent, logout] at hf
  | forcedLogout now =>
    intro hf
    simp only [stepEvent, forcedLogout] at hf ⊢
    by_cases hp : s.path = "/login"
    · rw [if_pos hp] at hf ⊢
      right; exact hp
    · rw [if_neg hp] at hf
      simp [startup, mountEffect, tokenPresent] at hf

theorem authInv_runEvents (s : AuthState) (evs : List SessionEvent) (h : AuthInv s) :
    AuthInv (runEvents s evs) := by
  induction evs generalizing s with
  | nil => exact h
  | cons e es ih => exact ih (stepEvent s e) (authInv_step s e h)

/-- The state left behind by one 401 pass of the response interceptor:
token cleared, page on `/login`, one more navigation when the page was
not already there. -/
def cleared401 (s : ClientState) : ClientState :=
  { store := none, path := "/login",
    navCount := s.navCount + (if s.path = "/login" then 0 else 1) }

theorem cleared401_idem (s : ClientState) : cleared401 (cleared401 s) = cleared401 s := by
  simp [cleared401]

theorem responseErrorInterceptor_401 (s : ClientState) (e : HttpError)
    (he : e.status = some 401) : responseErrorInterceptor s e = (cleared401 s, e) := by
  unfold responseErrorInterceptor cleared401
  rw [if_pos he]
  by_cases hp : s.path = "/login"
  · simp [hp]
  · simp [hp]

/-- Processing a batch of 401 errors clears the store, lands on
`/login`, performs the navigation side effect exactly once when not
already there, and hands every error back unchanged. -/
theorem processErrors_all401 (errs : List HttpError) :
    ∀ s : ClientState, (∀ e ∈ errs, e.status = some 401) →
      (processErrors s errs).2 = errs ∧
      (errs ≠ [] → (processErrors s errs).1 = cleared401 s) := by
  induction errs with
  | nil =>
    intro s _
    exact ⟨rfl, fun hne => absurd rfl hne⟩
  | cons e es ih =>
    intro s h
    have he : e.status = some 401 := h e (List.mem_cons_self e es)
    have h2 : ∀ x ∈ es, x.status = some 401 := fun x hx => h x (List.mem_cons_of_mem e hx)
    have ihr := ih (cleared401 s) h2
    have hexp : processErrors s (e :: es) =
        ((processErrors (cleared401 s) es).1, e :: (processErrors (cleared401 s) es).2) := by
      simp only [processErrors, responseErrorInterceptor_401 s e he]
    rw [hexp]
    refine ⟨by rw [ihr.1], fun _ => ?_⟩
    by_cases hes : es = []
    · subst hes
      rfl
    · rw [ihr.2 hes, cleared401_idem]

/-- On a list whose every key differs from `k`, appending `(k, v)` makes
`k` readable back as `v`. -/
theorem getHeader_append (hs : List (String × String)) (k v : String) :
    (∀ p ∈ hs, p.1 ≠ k) → getHeader (hs ++ [(k, v)]) k = some v := by
  induction hs with
  | nil => intro _; simp [getHeader, List.find?]
  | cons p ps ih =>
    intro h
    have hp : p.1 ≠ k := h p (List.mem_cons_self p ps)
    have hps : ∀ q ∈ ps, q.1 ≠ k := fun q hq => h q (List.mem_cons_of_mem p hq)
    simpa [getHeader, List.find?, hp] using ih hps

/-- Overwriting the binding of a present key `k` makes it readable back. -/
theorem getHeader_overwrite (hs : List (String × String)) (k v : String) :
    hs.any (fun p => p.1 = k) = true →
      getHeader (hs.map (fun p => if p.1 = k then (k, v) else p)) k = some v := by
  induction hs with
  | nil => intro h; simp at h
  | cons p ps ih =>
    intro h
    by_cases hp : p.1 = k
    · simp [getHeader, List.find?, hp]
    · have hps : ps.any (fun q => q.1 = k) = true := by
        simpa [List.any_cons, hp] using h
      simpa [getHeader, List.find?, hp] using ih hps

/-- Writing a header makes it readable back. -/
theorem getHeader_setHeader (hs : List (String × String)) (k v : String) :
    getHeader (setHeader hs k v) k = some v := by
  unfold setHeader
  by_cases h : hs.any (fun p => p.1 = k)
  · rw [if_pos h]
    exact getHeader_overwrite hs k v h
  · rw [if_neg h]
    refine getHeader_append hs k v (fun p hp => ?_)
    intro hk
    exact h (List.any_eq_true.mpr ⟨p, hp, by simp [hk]⟩)

/-! ## Claim theorems -/

/-- C1 (counterexample).  The claim "if the decoded payload has no
numeric `exp` claim it returns true" is false for the token `"a.MA.b"`:
its middle segment base64url-decodes to the JSON value `0`, which has no
`exp` claim at all, yet `isTokenValid` returns `false`, because the
source guards with JavaScript truthiness (`if (!payload) return false`)
and the number `0` is falsy. -/
theorem isTokenValid_falsy_payload_cex :
    (decodeJwtPayload "a.MA.b").isSome = true
  ∧ (decodeJwtPayload "a.MA.b").map Json.expNum = some none
  ∧ isTokenValid "a.MA.b" 0 = false := by decide

/-- C1 (amended).  `isTokenValid` returns false when the token is not
three dot-separated segments or the middle segment does not base64url-
decode to JSON — and also when the decoded value is JS-falsy (`null`,
`false`, `0` or `""`); for a truthy payload without a numeric `exp`
claim it returns true; for a truthy payload with a numeric `exp` claim
it returns true exactly when `exp` is strictly greater than the current
whole-second time. -/
theorem isTokenValid_spec (t : String) (now : Nat) :
    ((splitOnChar '.' t.data).length ≠ 3 → isTokenValid t now = false)
  ∧ (decodeJwtPayload t = none → isTokenValid t now = false)
  ∧ ((decodeJwtPayload t).map Json.truthy = some false → isTokenValid t now = false)
  ∧ ((decodeJwtPayload t).map Json.truthy = some true →
      (decodeJwtPayload t).map Json.expNum = some none → isTokenValid t now = true)
  ∧ (∀ e : JNum, (decodeJwtPayload t).map Json.truthy = some true →
      (decodeJwtPayload t).map Json.expNum = some (some e) →
      (isTokenValid t now = true ↔ (now : Rat) < e.toRat)) := by
  refine ⟨?_, ?_, ?_, ?_, ?_⟩
  · intro h
    unfold isTokenValid
    rw [decodeJwtPayload_eq_none_of_segments t h]
  · intro h
    unfold isTokenValid
    rw [h]
  · intro h
    cases hd : decodeJwtPayload t with
    | none => unfold isTokenValid; rw [hd]
    | some p =>
      rw [hd] at h
      simp at h
      unfold isTokenValid
      rw [hd]
      simp [h]
  · intro ht he
    cases hd : decodeJwtPayload t with
    | none => rw [hd] at ht; simp at ht
    | some p =>
      rw [hd] at ht he
      simp at ht he
      unfold isTokenValid
      rw [hd]
      simp [ht, he]
  · intro e ht he
    cases hd : decodeJwtPayload t with
    | none => rw [hd] at ht; simp at ht
    | some p =>
      rw [hd] at ht he
      simp at ht he
      unfold isTokenValid
      rw [hd]
      simp only [ht, he]
      simpa using JNum.gtNat_iff e now

/-- C1 (witness).  The amended characterisation applied to the token
with payload `{"exp":10}` at time 5 yields valid. -/
theorem isTokenValid_spec_witness :
    isTokenValid "a.eyJleHAiOjEwfQ.b" 5 = true :=
  ((isTokenValid_spec "a.eyJleHAiOjEwfQ.b" 5).2.2.2.2 ⟨10, 0⟩
    (by decide) (by decide)).mpr (by norm_num [JNum.toRat, pow10])

/-- C2 (counterexample).  A stored token that is present but expired
(payload `{"exp":1}`, checked at time 1000) yields an authenticated
session once startup completes: the initial `useState(checkAuth())`
value is false, but the mount `useEffect` overwrites the flag with
`!!token`, which is true for any present token.  The claim predicts
`Unauthenticated`. -/
theorem startup_expired_token_cex :
    (startup (some "a.eyJleHAiOjF9.b") "/instances" 1000).flag = true
  ∧ isTokenValid "a.eyJleHAiOjF9.b" 1000 = false
  ∧ startupInitialFlag (some "a.eyJleHAiOjF9.b") 1000 = false := by decide

/-- C2 (amended).  After startup completes, the session flag is
`Authenticated` iff the Token Store holds a (JS-truthy) token,
regardless of validity; the validity conjunction of the claim holds only
for the pre-effect initial render value `useState(checkAuth())`. -/
theorem startup_flag_spec (store : Option String) (path : String) (now : Nat) :
    ((startup store path now).flag = true ↔ ∃ t, store = some t ∧ t ≠ "")
  ∧ (startupInitialFlag store now = true ↔
      ∃ t, store = some t ∧ t ≠ "" ∧ isTokenValid t now = true) := by
  constructor
  · cases store with
    | none => simp [startup, mountEffect, tokenPresent]
    | some t => simp [startup, mountEffect, tokenPresent]
  · cases store with
    | none => simp [startupInitialFlag, isAuthenticated]
    | some t =>
      by_cases ht : t = ""
      · simp [startupInitialFlag, isAuthenticated, ht]
      · simp [startupInitialFlag, isAuthenticated, ht]

/-- C3 (counterexample).  `login(t)` for an already-expired token `t`
does not preserve the claimed invariant: from a fresh unauthenticated
startup, logging in with the token whose payload is `{"exp":1}` (at time
1000) reaches a state whose flag is true while the stored token fails
the validity check. -/
theorem login_expired_token_cex :
    (runEvents (startup none "/instances" 1000)
        [SessionEvent.login "a.eyJleHAiOjF9.b"]).flag = true
  ∧ (runEvents (startup none "/instances" 1000)
        [SessionEvent.login "a.eyJleHAiOjF9.b"]).store = some "a.eyJleHAiOjF9.b"
  ∧ isTokenValid "a.eyJleHAiOjF9.b" 1000 = false := by decide

/-- C3 (amended).  In every state reachable from startup by `login`,
`logout` and `forcedLogout`, an authenticated flag guarantees that the
Token Store holds a token — possibly expired, since `login` never
validates — except when the current view is the login screen, where
`forcedLogout` clears the token without touching the React flag. -/
theorem session_flag_token_invariant (s : AuthState)
    (h : ReachableAuth s) (hf : s.flag = true) :
    (∃ t, s.store = some t) ∨ s.path = "/login" := by
  obtain ⟨store, path, now, evs, rfl⟩ := h
  have hinv := authInv_runEvents (startup store path now) evs
    (authInv_startup store path now) hf
  cases hinv with
  | inl hs => exact Or.inl (Option.isSome_iff_exists.mp hs)
  | inr hp => exact Or.inr hp

/-- C3 (witness).  The invariant at the authenticated state reached by
starting up with a stored token. -/
theorem session_flag_token_invariant_witness :
    (∃ t, (startup (some "tok") "/instances" 0).store = some t)
  ∨ (startup (some "tok") "/instances" 0).path = "/login" :=
  session_flag_token_invariant (startup (some "tok") "/instances" 0)
    ⟨some "tok", "/instances", 0, [], rfl⟩ (by decide)

/-- C4 (confirmed).  Every 401 error makes the interceptor clear the
Token Store and leave the session unauthenticated (the derived
authentication check over the cleared store is false; the React flag
itself is recomputed to false by the reload the `/login` navigation
causes) before the error is rejected onward unchanged; a whole batch of
in-flight 401s still produces the navigation side effect at most once —
exactly once when the page is not already on `/login` — and every error
with any other status leaves the state untouched and passes through. -/
theorem response_401_exactly_once :
    (∀ (s : ClientState) (errs : List HttpError), errs ≠ [] →
      (∀ e ∈ errs, e.status = some 401) →
        (processErrors s errs).1.store = none
      ∧ (∀ now, isAuthenticated (processErrors s errs).1.store now = false)
      ∧ (processErrors s errs).2 = errs
      ∧ (processErrors s errs).1.path = "/login"
      ∧ (processErrors s errs).1.navCount =
          s.navCount + (if s.path = "/login" then 0 else 1))
  ∧ (∀ (s : ClientState) (e : HttpError), e.status ≠ some 401 →
      responseErrorInterceptor s e = (s, e)) := by
  constructor
  · intro s errs hne h
    have hp := processErrors_all401 errs s h
    have hs := hp.2 hne
    refine ⟨by rw [hs]; rfl, fun now => by rw [hs]; rfl, hp.1, by rw [hs]; rfl, by rw [hs]; rfl⟩
  · intro s e he
    unfold responseErrorInterceptor
    rw [if_neg he]

/-- C4 (witness).  Two in-flight 401s from the instances page: store
cleared, both errors propagated, one navigation; and a 500 passes
through untouched. -/
theorem response_401_exactly_once_witness :
    ((processErrors ⟨some "tok", "/instances", 0⟩
        [⟨some 401, 7⟩, ⟨some 401, 8⟩]).1.store = none
    ∧ (processErrors ⟨some "tok", "/instances", 0⟩
        [⟨some 401, 7⟩, ⟨some 401, 8⟩]).2 = [⟨some 401, 7⟩, ⟨some 401, 8⟩])
  ∧ responseErrorInterceptor ⟨some "tok", "/instances", 0⟩ ⟨some 500, 9⟩ =
      (⟨some "tok", "/instances", 0⟩, ⟨some 500, 9⟩) :=
  ⟨⟨(response_401_exactly_once.1 _ _ (by decide) (by decide)).1,
    (response_401_exactly_once.1 _ _ (by decide) (by decide)).2.2.1⟩,
   response_401_exactly_once.2 _ _ (by decide)⟩

/-- C5 (code bug).  A failing background (polling) fetch cycle does NOT
leave the displayed error state as it was: `fetchData` runs
`setError(null)` unconditionally before the requests, so an error shown
before the cycle (here the state after a failed foreground load)
disappears even though the cycle fails — contradicting the in-source
comment "Only update error state on initial load" and the specified
frame condition.  The loading state is indeed untouched. -/
theorem background_failure_clears_displayed_error :
    (fetchData true (.failure "Network Error")
        { metrics := [], decisions := [], loading := false,
          error := some "Failed to fetch metrics." }).error = none
  ∧ (fetchData true (.failure "Network Error")
        { metrics := [], decisions := [], loading := false,
          error := some "Failed to fetch metrics." }).error ≠
      some "Failed to fetch metrics."
  ∧ (fetchData true (.failure "Network Error")
        { metrics := [], decisions := [], loading := false,
          error := some "Failed to fetch metrics." }).loading = false := by decide

/-- C6 (confirmed).  `getInstances` maps a successful response to its
`instances` field, and every failure to a fresh error whose message is
the backend-supplied string when the body carries a (truthy) one, else
exactly `"Failed to fetch instances."`; the result is a function of the
single underlying call's outcome, so no retry is attempted. -/
theorem getInstances_error_normalisation :
    (∀ resp, getInstances (.ok resp) = .ok resp.instances)
  ∧ (∀ s, s ≠ "" → getInstances (.failure ⟨some s⟩) = .error s)
  ∧ getInstances (.failure ⟨none⟩) = .error "Failed to fetch instances."
  ∧ getInstances (.failure ⟨some ""⟩) = .error "Failed to fetch instances." := by
  refine ⟨fun resp => rfl, fun s hs => ?_, rfl, rfl⟩
  unfold getInstances serviceErrorMessage
  simp [hs]

/-- C6 (witness).  A backend-supplied message survives verbatim. -/
theorem getInstances_error_normalisation_witness :
    getInstances (.failure ⟨some "Unauthorized"⟩) = .error "Unauthorized" :=
  getInstances_error_normalisation.2.1 "Unauthorized" (by decide)

/-- C7 (confirmed).  The request interceptor sets the `Authorization`
header to `Bearer <token>` whenever the store holds a (JS-truthy) token,
and forwards the configuration bit-for-bit unmodified when it holds
none. -/
theorem request_interceptor_spec (store : Option String) (config : RequestConfig) :
    (∀ t, store = some t → t ≠ "" →
      requestInterceptor store config =
        { config with headers := setHeader config.headers "Authorization" ("Bearer " ++ t) }
      ∧ getHeader (requestInterceptor store config).headers "Authorization" =
          some ("Bearer " ++ t))
  ∧ (tokenPresent store = false → requestInterceptor store config = config) := by
  constructor
  · intro t ht hne
    subst ht
    have hr : requestInterceptor (some t) config =
        { config with headers := setHeader config.headers "Authorization" ("Bearer " ++ t) } := by
      simp only [requestInterceptor]
      rw [if_pos hne]
    exact ⟨hr, by rw [hr]; exact getHeader_setHeader config.headers _ _⟩
  · intro hp
    cases store with
    | none => rfl
    | some t =>
      have ht : t = "" := by
        by_contra hne
        simp [tokenPresent, hne] at hp
      subst ht
      simp [requestInterceptor]

/-- C7 (witness).  A concrete request with a stored token gets the
bearer header; with an empty store it is unchanged. -/
theorem request_interceptor_spec_witness :
    getHeader (requestInterceptor (some "tok")
      ⟨"/api/instances/", "get", none, []⟩).headers "Authorization" =
        some ("Bearer " ++ "tok")
  ∧ requestInterceptor none ⟨"/api/instances/", "get", none, []⟩ =
      ⟨"/api/instances/", "get", none, []⟩ :=
  ⟨((request_interceptor_spec (some "tok") ⟨"/api/instances/", "get", none, []⟩).1
      "tok" rfl (by decide)).2,
   (request_interceptor_spec none ⟨"/api/instances/", "get", none, []⟩).2 (by decide)⟩

/-- C8 (confirmed).  On a 401, the navigation side effect to `/login` is
performed iff the current view is not already `/login`: a 401 received
while on the login screen leaves the path and the navigation count
unchanged. -/
theorem forced_logout_navigation_guard (s : ClientState) (e : HttpError)
    (he : e.status = some 401) :
    ((responseErrorInterceptor s e).1.navCount = s.navCount + 1 ↔ s.path ≠ "/login")
  ∧ (s.path = "/login" → (responseErrorInterceptor s e).1.path = s.path
      ∧ (responseErrorInterceptor s e).1.navCount = s.navCount)
  ∧ (s.path ≠ "/login" → (responseErrorInterceptor s e).1.path = "/login") := by
  rw [responseErrorInterceptor_401 s e he]
  unfold cleared401
  by_cases hp : s.path = "/login"
  · simp [hp]
  · simp [hp]

/-- C8 (witness).  A 401 while already on `/login` triggers no
redirect. -/
theorem forced_logout_navigation_guard_witness :
    (responseErrorInterceptor ⟨some "tok", "/login", 5⟩ ⟨some 401, 3⟩).1.path = "/login"
  ∧ (responseErrorInterceptor ⟨some "tok", "/login", 5⟩ ⟨some 401, 3⟩).1.navCount = 5 :=
  (forced_logout_navigation_guard ⟨some "tok", "/login", 5⟩ ⟨some 401, 3⟩
    (by decide)).2.1 rfl

/-- C9 (confirmed).  `"abc"` fails exactly `minLength`, `uppercase`,
`number` and `special` while `lowercase` passes; `"Abcdef1!"` satisfies
all five rules; hence `isPasswordValid` is false on the former and true
on the latter. -/
theorem password_rule_examples :
    validatePasswordRules "abc" =
      { minLength := false, uppercase := false, lowercase := true,
        number := false, special := false }
  ∧ validatePasswordRules "Abcdef1!" =
      { minLength := true, uppercase := true, lowercase := true,
        number := true, special := true }
  ∧ isPasswordValid "abc" = false
  ∧ isPasswordValid "Abcdef1!" = true := by decide

/-- C10 (confirmed).  `isTokenValid` is a total boolean function of the
token string (it is defined for every input, so it always returns a
boolean), and every exception of the decoding pipeline (`atob`,
`JSON.parse`) is caught and mapped to the fail-closed result `false`. -/
theorem isTokenValid_total_fail_closed (t : String) (now : Nat) :
    (isTokenValid t now = true ∨ isTokenValid t now = false)
  ∧ ((decodeJwtPayloadE t).isOk = false → isTokenValid t now = false) := by
  constructor
  · cases h : isTokenValid t now
    · exact Or.inr rfl
    · exact Or.inl rfl
  · intro h
    unfold isTokenValid decodeJwtPayload
    cases he : decodeJwtPayloadE t with
    | ok r => rw [he] at h; simp [Except.isOk, Except.toBool] at h
    | error u => rfl

/-- C10 (witness).  The token `"a.!.b"`, whose middle segment makes
`atob` throw, is mapped to `false`. -/
theorem isTokenValid_total_fail_closed_witness :
    isTokenValid "a.!.b" 0 = false :=
  (isTokenValid_total_fail_closed "a.!.b" 0).2 (by decide)

end AutoScaler
